import Mathlib

/-!
Verification of the Universal-forum-parcer core against its specification.

The development shallowly embeds the program's core components:

* `src/src/browser/pagination.py` — pure URL arithmetic (`PaginationManager`).
  A URL is modelled as the part before `?` together with the order-preserving
  list of query parameters that `urllib.parse.parse_qs` would return; a query
  parameter value is either a decimal numeral (represented by its integer
  value, since Python's `int()`/f-string formatting round-trip) or an opaque
  non-numeric string.
* `src/src/storage/repository.py` — the SQLite-backed state store, modelled
  as lists of rows with the SQL statements embedded as list transformations
  (an `UPDATE ... WHERE` is a map guarded by the predicate, its `rowcount`
  the number of matching rows; an `INSERT` respecting `UNIQUE(block_id,url)`
  either appends or raises, the repository code swallowing the error).
* `src/src/downloader/downloader.py` — the retry/backoff/resume download
  loop. The HTTP world is a function from attempt index to a `Response`;
  jitter bytes (`os.urandom(1)[0]`) are a function from attempt index to a
  byte. Backoff arithmetic is exact in binary floating point for the values
  reached (powers of two and 60, plus `b/255`), so it is modelled in `ℚ`.
  A `ClientError` covers request failures, non-success statuses raised by
  `raise_for_status`, and mid-stream failures; bytes a failed stream may have
  written to the `.part` file before failing are not modelled (no claim
  depends on them, and the loop's `resume_from` is computed once before the
  loop, never re-read).
* `src/src/app/orchestrator.py` — the registration part of `process_block`,
  with the filesystem's set of numbered image directories modelled as the
  list of `(number, slug)` pairs the orchestrator created (every directory
  it creates is numbered, so `_get_next_block_number`'s digit check accepts
  all of them).

Timestamps (`datetime.now()`) are abstract ticks (`Nat`) supplied by the
caller.
-/

/-- Python's `s.startswith(pre)`, i.e. `s[:len(pre)] == pre`, computed on the
character list (agrees with `String.startsWith` and, unlike it, evaluates
inside the kernel). -/
def pyStartsWith (s pre : String) : Bool :=
  s.data.take pre.data.length == pre.data

/-- Status of an image link, from `src/src/domain/models.py` (`LinkStatus`). -/
inductive LinkStatus where
  | new
  | queued
  | downloading
  | done
  | failed
  | skipped
deriving Repr, DecidableEq

/-! ## Pagination (`src/src/browser/pagination.py`) -/

/-- Value of one query parameter. `num v` stands for a decimal numeral string
whose integer value is `v` (Python's `int()` parses it back to `v`); `raw s`
stands for any other string, on which `int()` raises. -/
inductive ParamVal where
  | num (v : Int)
  | raw (s : String)
deriving Repr, DecidableEq

/-- Python's `int(value)` wrapped in `try/except`: numerals convert, anything
else raises (modelled as `none`). -/
def pyInt? : ParamVal → Option Int
  | .num v => some v
  | .raw _ => none

/-- Whether a parameter value is the blank string, which
`parse_qs` (without `keep_blank_values`) drops. -/
def ParamVal.isBlank : ParamVal → Bool
  | .num _ => false
  | .raw s => s = ""

/-- A URL split at `?`: `base` is scheme+host+path, `params` is the
order-preserving multiset of query parameters as `parse_qs` sees them. -/
structure Url where
  base : String
  params : List (String × ParamVal)
deriving Repr, DecidableEq

/-- First value of parameter `k`, as computed by
`parse_qs(parsed.query).get(k, [None])[0]` — blank values dropped, first
occurrence wins. -/
def getFirstParam (ps : List (String × ParamVal)) (k : String) : Option ParamVal :=
  ((ps.filter (fun p => p.1 = k && !p.2.isBlank)).head?).map (·.2)

/-- Python's `str.rstrip("/")`. -/
def rstripSlash (s : String) : String :=
  String.mk ((s.toList.reverse.dropWhile (· = '/')).reverse)

/-- The pagination manager's constructor-time fields
(`PaginationManager.__init__`). -/
structure PaginationManager where
  domain : String
  page_param : String
  posts_per_page : Int
  base_url : Url
deriving Repr, DecidableEq

/-- Constructor: `__init__` plus `_parse_base_url`, which joins the domain
(right-stripped of `/`) with the start path (given a leading `/`) and strips
every occurrence of the pagination parameter from the query
(`query_params.pop(self.page_param, None)`). -/
def mkPaginationManager (domain : String) (start_url : Url) (page_param : String)
    (posts_per_page : Int) : PaginationManager :=
  let dom := rstripSlash domain
  let path := if pyStartsWith start_url.base "/" then start_url.base else "/" ++ start_url.base
  { domain := dom
    page_param := page_param
    posts_per_page := posts_per_page
    base_url := { base := dom ++ path
                  params := start_url.params.filter (fun p => p.1 ≠ page_param) } }

/-- URL for a page number (`PaginationManager.get_page_url`): non-positive
page numbers give the base URL with no pagination parameter; otherwise the
parameter is appended with value `N * posts_per_page` for offset-style
(`"start"`) or `N + 1` for page-style. -/
def get_page_url (m : PaginationManager) (page_number : Int) : Url :=
  if page_number ≤ 0 then
    m.base_url
  else
    let param_value : Int :=
      if m.page_param = "start" then page_number * m.posts_per_page
      else page_number + 1
    { m.base_url with
        params := m.base_url.params ++ [(m.page_param, .num param_value)] }

/-- Inverse (`PaginationManager.extract_page_number`): absent parameter or a
non-numeric value gives 0; offset-style floor-divides by the page size
(Python `//` is floor division, `Int.fdiv`); page-style subtracts 1; finally
clamped to be non-negative (`max(0, page_number)`). -/
def extract_page_number (m : PaginationManager) (url : Url) : Int :=
  match getFirstParam url.params m.page_param with
  | none => 0
  | some pv =>
    match pyInt? pv with
    | none => 0
    | some v =>
      let page_number :=
        if m.page_param = "start" then Int.fdiv v m.posts_per_page
        else v - 1
      max 0 page_number

/-- Absolute-URL construction from `find_next_page`'s match branch: an href
already starting with `http` is returned as-is; otherwise a leading `./` is
removed, a leading `/` ensured, and the domain prepended. -/
def absolutize (m : PaginationManager) (link : Url) : Url :=
  if pyStartsWith link.base "http" then link
  else
    let b := if pyStartsWith link.base "./" then String.mk (link.base.data.drop 2) else link.base
    let b := if pyStartsWith b "/" then b else "/" ++ b
    { link with base := m.domain ++ b }

/-- Next-page search (`PaginationManager.find_next_page`): returns the first
discovered href whose extracted page number is the current page number plus
one, made absolute; `none` for an empty href list or when no href matches. -/
def find_next_page (m : PaginationManager) (current_url : Url)
    (pagination_links : List Url) : Option Url :=
  if pagination_links = [] then none
  else
    let next_page_number := extract_page_number m current_url + 1
    match pagination_links.find? (fun l => extract_page_number m l = next_page_number) with
    | some l => some (absolutize m l)
    | none => none

/-! ## Persistent state store (`src/src/storage/repository.py`)

Rows mirror the columns of the `links` and `pages` tables of
`src/src/storage/database.py`; nullable columns are `Option`s, timestamp
columns are abstract ticks. -/

/-- One row of the `links` table. -/
structure LinkRow where
  id : Nat
  block_id : Nat
  url : String
  referer : Option String
  status : LinkStatus
  filename : Option String
  size : Option Int
  etag : Option String
  last_modified : Option String
  retries : Int
  error : Option String
  created_at : Nat
  updated_at : Nat
deriving Repr, DecidableEq

/-- One row of the `pages` table. -/
structure PageRow where
  id : Nat
  url : String
  page_number : Int
  status : String
  blocks_found : Int
  error : Option String
  created_at : Nat
  updated_at : Nat
deriving Repr, DecidableEq

/-- The `ImageLink` dataclass of `src/src/domain/models.py` (the parts
`add_links` persists). -/
structure ImageLink where
  url : String
  referer : Option String := none
  status : LinkStatus := .new
  filename : Option String := none
  size : Option Int := none
  etag : Option String := none
  last_modified : Option String := none
  retries : Int := 0
  error : Option String := none
  created_at : Nat := 0
  updated_at : Nat := 0
deriving Repr, DecidableEq

/-- Whether some row already has this `(block_id, url)` pair — the condition
under which the `UNIQUE(block_id, url)` constraint rejects an insert. -/
def pairPresent (db : List LinkRow) (block_id : Nat) (url : String) : Bool :=
  db.any (fun r => r.block_id = block_id && r.url = url)

/-- The id `AUTOINCREMENT` assigns to the next inserted link
(`cursor.lastrowid`); link rows are never deleted, so it is one more than the
largest id in the table. -/
def nextLinkId (db : List LinkRow) : Nat :=
  db.foldr (fun r a => max r.id a) 0 + 1

/-- Row built by the `INSERT INTO links ...` of `add_links` from an
`ImageLink`'s fields. -/
def linkRowOf (id block_id : Nat) (l : ImageLink) : LinkRow :=
  { id := id
    block_id := block_id
    url := l.url
    referer := l.referer
    status := l.status
    filename := l.filename
    size := l.size
    etag := l.etag
    last_modified := l.last_modified
    retries := l.retries
    error := l.error
    created_at := l.created_at
    updated_at := l.updated_at }

/-- One `INSERT` attempt: fails with `sqlite3.IntegrityError` (modelled as
`Except.error`) when the `(block_id, url)` pair already exists, else appends
the new row. -/
def insert_link (db : List LinkRow) (block_id : Nat) (l : ImageLink) :
    Except Unit (List LinkRow) :=
  if pairPresent db block_id l.url then .error ()
  else .ok (db ++ [linkRowOf (nextLinkId db) block_id l])

/-- The `add_links` loop (`LinkRepository.add_links`): each link is inserted
in turn, an `IntegrityError` on a duplicate being caught and ignored
(`except sqlite3.IntegrityError: pass`). -/
def add_links (db : List LinkRow) (block_id : Nat) (links : List ImageLink) :
    List LinkRow :=
  links.foldl
    (fun acc l =>
      match insert_link acc block_id l with
      | .ok db2 => db2
      | .error _ => acc)
    db

/-- Rows carrying a given `(block_id, url)` pair. -/
def rowsFor (db : List LinkRow) (block_id : Nat) (url : String) : List LinkRow :=
  db.filter (fun r => r.block_id = block_id && r.url = url)

/-- One column assignment of the dynamically built `SET` clause of
`update_link_status`. -/
inductive ColVal where
  | status (v : LinkStatus)
  | updated_at (t : Nat)
  | filename (v : String)
  | size (v : Int)
  | etag (v : String)
  | last_modified (v : String)
  | error (v : String)
deriving Repr, DecidableEq

/-- The `updates` dict of `update_link_status`: always status and the
refreshed timestamp, then each optional field only when its argument is not
`None`. -/
def buildUpdates (status : LinkStatus) (filename : Option String)
    (size : Option Int) (etag : Option String) (last_modified : Option String)
    (error : Option String) (now : Nat) : List ColVal :=
  [.status status, .updated_at now]
    ++ (match filename with | some v => [.filename v] | none => [])
    ++ (match size with | some v => [.size v] | none => [])
    ++ (match etag with | some v => [.etag v] | none => [])
    ++ (match last_modified with | some v => [.last_modified v] | none => [])
    ++ (match error with | some v => [.error v] | none => [])

/-- Application of one `SET` assignment to a row. -/
def applyCol (r : LinkRow) : ColVal → LinkRow
  | .status v => { r with status := v }
  | .updated_at t => { r with updated_at := t }
  | .filename v => { r with filename := some v }
  | .size v => { r with size := some v }
  | .etag v => { r with etag := some v }
  | .last_modified v => { r with last_modified := some v }
  | .error v => { r with error := some v }

/-- The `UPDATE links SET <set_clause> WHERE id = ?` of
`LinkRepository.update_link_status`, with the optional
`retries = retries + 1` assignment appended when `increment_retries`. -/
def update_link_status (db : List LinkRow) (link_id : Nat) (status : LinkStatus)
    (filename : Option String := none) (size : Option Int := none)
    (etag : Option String := none) (last_modified : Option String := none)
    (error : Option String := none) (increment_retries : Bool := false)
    (now : Nat := 0) : List LinkRow :=
  let updates := buildUpdates status filename size etag last_modified error now
  db.map fun r =>
    if r.id = link_id then
      let r2 := updates.foldl applyCol r
      if increment_retries then { r2 with retries := r2.retries + 1 } else r2
    else r

/-- `LinkRepository.recover_downloading_links`: the
`UPDATE links SET status = queued, updated_at = now WHERE status = downloading`
together with the cursor's `rowcount` (the number of rows the `UPDATE`
touched). -/
def recover_downloading_links (db : List LinkRow) (now : Nat) :
    List LinkRow × Nat :=
  (db.map fun r =>
      if r.status = .downloading then { r with status := .queued, updated_at := now }
      else r,
   (db.filter (fun r => r.status = .downloading)).length)

/-- `LinkRepository.recover_processing_pages`: the analogous
`UPDATE pages SET status = new, updated_at = now WHERE status = processing`
with its `rowcount`. -/
def recover_processing_pages (db : List PageRow) (now : Nat) :
    List PageRow × Nat :=
  (db.map fun r =>
      if r.status = "processing" then { r with status := "new", updated_at := now }
      else r,
   (db.filter (fun r => r.status = "processing")).length)

/-! ## Download engine (`src/src/downloader/downloader.py`)

File contents are byte lists. The world is a function from attempt index to
the response that attempt's `session.get` produces; each completed loop
iteration increments `attempt` exactly once, so at the start of an iteration
`attempt` equals the number of previous iterations and indexes the current
response. -/

/-- Outcome of one `session.get` as the loop classifies it. `clientError`
covers every `aiohttp.ClientError`: connection/timeout/protocol failures and
the `raise_for_status` of a non-success status. `unexpectedError` is the
final `except Exception` arm. `rateLimited` is status 429/503 with the parsed
`Retry-After` value (0 when the header is absent or blank). -/
inductive Response where
  | rateLimited (retryAfter : Nat)
  | clientError (msg : String)
  | ok (contentType : String) (contentLength : Option Nat)
      (etag : Option String) (lastModified : Option String) (body : List Nat)
  | unexpectedError (msg : String)
deriving Repr, DecidableEq

/-- Mutable state the loop threads: the `.part` file's content (if the file
exists) and the `link` object's metadata fields the loop assigns. -/
structure LoopState where
  part : Option (List Nat)
  size : Option Nat
  etag : Option String
  last_modified : Option String
deriving Repr, DecidableEq

/-- Result of `download_image`: the returned `(success, error_message)` pair,
the on-disk state (`part` file and final file), the final link metadata, the
number of HTTP requests issued, and the exponential-backoff sleeps performed,
each tagged with the consecutive-retry index it belongs to (server-specified
`Retry-After` sleeps are not backoff sleeps and are not recorded). -/
structure Outcome where
  success : Bool
  error : Option String
  part : Option (List Nat)
  final : Option (List Nat)
  size : Option Nat
  etag : Option String
  last_modified : Option String
  requests : Nat
  backoffSleeps : List (Nat × ℚ)
deriving Repr, DecidableEq

/-- Resume offset (`download_image` lines 69–71): the byte length of an
existing `.part` file, else 0. -/
def resume_from (part : Option (List Nat)) : Nat :=
  match part with
  | some content => content.length
  | none => 0

/-- Byte-range request header (lines 83–84): `Range: bytes=<off>-` is sent
exactly when the resume offset is positive. -/
def rangeHeader (off : Nat) : Option Nat :=
  if off > 0 then some off else none

/-- The `while attempt < self.max_retries` loop of
`ImageDownloader.download_image`. Arguments mirror the Python locals:
`off` is `resume_from`, `attempt` the consumed-attempt counter, `backoff`
the current backoff seconds. `jitters a` is the byte `os.urandom(1)[0]`
drawn in iteration `a`, so that iteration's jittered sleep is
`backoff + jitters a / 255`. The loop guard `attempt < max_retries` is
carried as the structural variant `fuel = maxRetries - attempt` (each
completed iteration increments `attempt` exactly once, so `fuel = 0` is
exactly the guard failing and the loop falling through to the final
`return False, "Max retries (...) exceeded"`); `download_image` enters the
loop with `attempt = 0`, `fuel = maxRetries`. -/
def runAttempts (maxRetries : Nat) (responses : Nat → Response)
    (jitters : Nat → Nat) (off : Nat) :
    (fuel : Nat) → (attempt : Nat) → (backoff : ℚ) → (st : LoopState) → Outcome
  | 0, _attempt, _backoff, st =>
    { success := false
      error := some ("Max retries (" ++ toString maxRetries ++ ") exceeded")
      part := st.part, final := none
      size := st.size, etag := st.etag, last_modified := st.last_modified
      requests := 0, backoffSleeps := [] }
  | fuel + 1, attempt, backoff, st =>
    match responses attempt with
    | .rateLimited retryAfter =>
      -- 429/503: sleep (server delay if positive, else backoff+jitter),
      -- consume the attempt, double the capped backoff, continue.
      let o := runAttempts maxRetries responses jitters off fuel (attempt + 1)
        (min (backoff * 2) 60) st
      { o with
          requests := o.requests + 1
          backoffSleeps :=
            (if retryAfter > 0 then []
             else [(attempt + 1, backoff + (jitters attempt : ℚ) / 255)])
              ++ o.backoffSleeps }
    | .clientError msg =>
      -- aiohttp.ClientError: consume the attempt; fail with the error text
      -- if the budget is spent, else backoff-sleep and retry.
      if attempt + 1 ≥ maxRetries then
        { success := false, error := some msg, part := st.part, final := none
          size := st.size, etag := st.etag, last_modified := st.last_modified
          requests := 1, backoffSleeps := [] }
      else
        let o := runAttempts maxRetries responses jitters off fuel (attempt + 1)
          (min (backoff * 2) 60) st
        { o with
            requests := o.requests + 1
            backoffSleeps :=
              (attempt + 1, backoff + (jitters attempt : ℚ) / 255) :: o.backoffSleeps }
    | .ok contentType contentLength etag lastModified body =>
      if pyStartsWith contentType "image/" then
        -- Record header metadata, stream the body into the .part file
        -- ("ab" when resuming, "wb" otherwise), then `os.replace` the .part
        -- file onto the final path.
        let written := if off > 0 then (st.part.getD []) ++ body else body
        { success := true, error := none, part := none, final := some written
          size := match contentLength with | some v => some v | none => st.size
          etag := match etag with | some v => some v | none => st.etag
          last_modified := match lastModified with | some v => some v | none => st.last_modified
          requests := 1, backoffSleeps := [] }
      else
        -- Content-type validation failure: permanent, before any write.
        { success := false, error := some ("Invalid content type: " ++ contentType)
          part := st.part, final := none
          size := st.size, etag := st.etag, last_modified := st.last_modified
          requests := 1, backoffSleeps := [] }
    | .unexpectedError msg =>
      -- `except Exception`: permanent immediate failure.
      { success := false, error := some msg, part := st.part, final := none
        size := st.size, etag := st.etag, last_modified := st.last_modified
        requests := 1, backoffSleeps := [] }

/-- `ImageDownloader.download_image`: compute the resume offset from the
`.part` file, then run the attempt loop from `attempt = 0`, `backoff = 1.0`,
with the full retry budget. -/
def download_image (maxRetries : Nat) (responses : Nat → Response)
    (jitters : Nat → Nat) (part0 : Option (List Nat)) : Outcome :=
  runAttempts maxRetries responses jitters (resume_from part0) maxRetries 0 1
    ⟨part0, none, none, none⟩

/-- One invocation of the status callback with its keyword arguments
(`status_callback(link, status, **kwargs)`). -/
structure CallbackCall where
  status : LinkStatus
  filename : Option String := none
  size : Option Nat := none
  etag : Option String := none
  last_modified : Option String := none
  error : Option String := none
  increment_retries : Bool := false
deriving Repr, DecidableEq

/-- `ImageDownloader.download_link` with a callback supplied: emits
DOWNLOADING (with the derived filename) before the attempt loop, then exactly
one terminal callback — DONE with the link's metadata on success, FAILED with
the error text and `increment_retries=True` otherwise. The filename
derivation (`urlparse`/`sanitize_filename`/hash fallback) is taken as a
parameter; the claims settled here do not depend on its content. Returns the
download outcome and the ordered list of callback invocations. -/
def download_link (maxRetries : Nat) (responses : Nat → Response)
    (jitters : Nat → Nat) (filename : String) (part0 : Option (List Nat)) :
    Outcome × List CallbackCall :=
  let o := download_image maxRetries responses jitters part0
  (o,
    [{ status := .downloading, filename := some filename }]
      ++ (if o.success then
            [{ status := .done, filename := some filename, size := o.size
               etag := o.etag, last_modified := o.last_modified }]
          else
            [{ status := .failed, error := o.error, increment_retries := true }]))

/-! ## Orchestrator registration (`src/src/app/orchestrator.py`)

The registration part of `process_block`: block numbering from the image
directory count, the existing-block lookup by numbered slug, and link
insertion. The download and export phases add or remove no rows and are not
needed by the registration claims. A numbered slug `"NNNN_slug"` is modelled
as the pair `(NNNN, slug)` (`"%04d_" % n ++ slug` is injective for the
numbers reached); the image root's numbered directories are the list of such
pairs in creation order — every directory the orchestrator creates is
numbered, so the `d.name[:4].isdigit()` filter of `_get_next_block_number`
accepts exactly these. -/

/-- One row of the `blocks` table, its slug column holding a numbered slug. -/
structure BlockRow where
  id : Nat
  title : String
  numslug : Nat × String
deriving Repr, DecidableEq

/-- State the registration path touches: numbered image directories, the
`blocks` table, the `links` table. -/
structure OrchState where
  dirs : List (Nat × String)
  blocks : List BlockRow
  links : List LinkRow
deriving Repr, DecidableEq

/-- A fresh session: empty image root, empty store. -/
def OrchState.empty : OrchState := ⟨[], [], []⟩

/-- `Orchestrator._get_next_block_number`: one more than the number of
numbered directories currently in the image root. -/
def _get_next_block_number (s : OrchState) : Nat :=
  s.dirs.length + 1

/-- The id `AUTOINCREMENT` assigns to the next block
(`create_block`'s `cursor.lastrowid`); blocks are never deleted. -/
def nextBlockId (blocks : List BlockRow) : Nat :=
  blocks.foldr (fun b a => max b.id a) 0 + 1

/-- `ensure_directory`: creates the directory if it does not exist. -/
def ensureDir (dirs : List (Nat × String)) (d : Nat × String) :
    List (Nat × String) :=
  if d ∈ dirs then dirs else dirs ++ [d]

/-- The per-link mutation both branches of `process_block` apply before
`add_links`: set the referer from the page URL when the link has none, and
set the status to QUEUED. -/
def prepLinks (page_url : Option String) (links : List ImageLink) :
    List ImageLink :=
  links.map fun l =>
    { l with
        referer := match page_url, l.referer with
          | some p, none => some p
          | _, _ => l.referer
        status := .queued }

/-- Registration part of `Orchestrator.process_block` for a block extracted
with the given title, slug and links: compute the next block number from the
directory count, form the numbered slug, look it up in the store
(`get_block_by_slug`); on a hit reuse the existing block's id, else
`create_block`; set referers and QUEUED status and `add_links` either way
(the `UNIQUE` constraint silently dropping duplicates); finally
`ensure_directory` for the block's image directory. -/
def process_block_reg (s : OrchState) (page_url : Option String)
    (title slug : String) (links : List ImageLink) : OrchState :=
  let n := _get_next_block_number s
  let numbered_slug := (n, slug)
  match s.blocks.find? (fun b => b.numslug = numbered_slug) with
  | some b =>
    { s with
        links := add_links s.links b.id (prepLinks page_url links)
        dirs := ensureDir s.dirs numbered_slug }
  | none =>
    let bid := nextBlockId s.blocks
    { dirs := ensureDir s.dirs numbered_slug
      blocks := s.blocks ++ [⟨bid, title, numbered_slug⟩]
      links := add_links s.links bid (prepLinks page_url links) }

/-- `Orchestrator.process_html`'s registration effect: the page's extracted
blocks are processed in order, each with the page URL as referer source. -/
def process_html_reg (s : OrchState) (page_url : Option String)
    (blocks : List (String × String × List ImageLink)) : OrchState :=
  blocks.foldl (fun acc b => process_block_reg acc page_url b.1 b.2.1 b.2.2) s

/-! ## Concrete fixtures used by witness theorems -/

/-- Fixture: a link row persisted in DOWNLOADING when the process died. -/
def sampleDownloadingLink : LinkRow :=
  { id := 1, block_id := 1, url := "u1", referer := none,
    status := .downloading, filename := none, size := none, etag := none,
    last_modified := none, retries := 0, error := none, created_at := 0,
    updated_at := 0 }

/-- Fixture: a link row already DONE. -/
def sampleDoneLink : LinkRow :=
  { id := 2, block_id := 1, url := "u2", referer := none,
    status := .done, filename := some "a.jpg", size := some 10, etag := none,
    last_modified := none, retries := 0, error := none, created_at := 0,
    updated_at := 0 }

/-- Fixture: a page row stuck in `processing`. -/
def sampleProcessingPage : PageRow :=
  { id := 1, url := "p1", page_number := 0, status := "processing",
    blocks_found := 0, error := none, created_at := 0, updated_at := 0 }

/-- Fixture: a page row already `done`. -/
def sampleDonePage : PageRow :=
  { id := 2, url := "p2", page_number := 1, status := "done",
    blocks_found := 2, error := none, created_at := 0, updated_at := 0 }

/-! ## Helper lemmas -/

lemma filter_key_filter_ne (ps : List (String × ParamVal)) (k : String) :
    (ps.filter (fun p => p.1 ≠ k)).filter
      (fun p => p.1 = k && !p.2.isBlank) = [] := by
  induction ps with
  | nil => rfl
  | cons a t ih =>
    by_cases h : a.1 = k
    · simpa [List.filter_cons, h] using ih
    · simpa [List.filter_cons, h] using ih

lemma getFirstParam_filter_ne (ps : List (String × ParamVal)) (k : String) :
    getFirstParam (ps.filter (fun p => p.1 ≠ k)) k = none := by
  unfold getFirstParam
  rw [filter_key_filter_ne]
  rfl

lemma getFirstParam_append_num (ps : List (String × ParamVal)) (k : String)
    (v : Int) (h : getFirstParam ps k = none) :
    getFirstParam (ps ++ [(k, ParamVal.num v)]) k = some (.num v) := by
  unfold getFirstParam at h ⊢
  have hnil : ps.filter (fun p => p.1 = k && !p.2.isBlank) = [] := by
    cases heq : ps.filter (fun p => p.1 = k && !p.2.isBlank) with
    | nil => rfl
    | cons a t => rw [heq] at h; simp at h
  rw [List.filter_append, hnil]
  simp [ParamVal.isBlank]

lemma absolutize_params (m : PaginationManager) (l : Url) :
    (absolutize m l).params = l.params := by
  unfold absolutize
  split_ifs <;> rfl

lemma extract_page_number_absolutize (m : PaginationManager) (l : Url) :
    extract_page_number m (absolutize m l) = extract_page_number m l := by
  unfold extract_page_number
  rw [absolutize_params]

lemma add_links_cons (db : List LinkRow) (b : Nat) (l : ImageLink)
    (ls : List ImageLink) :
    add_links db b (l :: ls) =
      add_links (if pairPresent db b l.url then db
                 else db ++ [linkRowOf (nextLinkId db) b l]) b ls := by
  unfold add_links insert_link
  by_cases h : pairPresent db b l.url
  · simp [h]
  · simp [h]

lemma pairPresent_append (db t : List LinkRow) (b : Nat) (u : String)
    (h : pairPresent db b u = true) : pairPresent (db ++ t) b u = true := by
  unfold pairPresent at h ⊢
  rw [List.any_append, h]
  rfl

lemma add_links_suffix (db : List LinkRow) (b : Nat) (ls : List ImageLink) :
    ∃ t, add_links db b ls = db ++ t := by
  induction ls generalizing db with
  | nil => exact ⟨[], (List.append_nil db).symm⟩
  | cons l ls ih =>
    rw [add_links_cons]
    by_cases h : pairPresent db b l.url
    · rw [if_pos h]; exact ih db
    · rw [if_neg h]
      obtain ⟨t, ht⟩ := ih (db ++ [linkRowOf (nextLinkId db) b l])
      exact ⟨[linkRowOf (nextLinkId db) b l] ++ t, by rw [ht, List.append_assoc]⟩

lemma pairPresent_add_links (db : List LinkRow) (b : Nat) (ls : List ImageLink)
    (u : String) (h : pairPresent db b u = true) :
    pairPresent (add_links db b ls) b u = true := by
  obtain ⟨t, ht⟩ := add_links_suffix db b ls
  rw [ht]
  exact pairPresent_append db t b u h

lemma pairPresent_self_append (db : List LinkRow) (b : Nat) (l : ImageLink) :
    pairPresent (db ++ [linkRowOf (nextLinkId db) b l]) b l.url = true := by
  unfold pairPresent
  rw [List.any_append]
  simp [linkRowOf]

lemma add_links_all_present (db : List LinkRow) (b : Nat)
    (ls : List ImageLink) :
    ∀ l ∈ ls, pairPresent (add_links db b ls) b l.url = true := by
  induction ls generalizing db with
  | nil => intro l hl; cases hl
  | cons a ls ih =>
    intro l hl
    rw [add_links_cons]
    rcases List.mem_cons.mp hl with rfl | hmem
    · by_cases h : pairPresent db b l.url
      · rw [if_pos h]; exact pairPresent_add_links _ _ _ _ h
      · rw [if_neg h]
        exact pairPresent_add_links _ _ _ _ (pairPresent_self_append db b l)
    · by_cases h : pairPresent db b a.url
      · rw [if_pos h]; exact ih db l hmem
      · rw [if_neg h]; exact ih _ l hmem

lemma add_links_id_of_all_present (db : List LinkRow) (b : Nat)
    (ls : List ImageLink) (h : ∀ l ∈ ls, pairPresent db b l.url = true) :
    add_links db b ls = db := by
  induction ls with
  | nil => rfl
  | cons a ls ih =>
    rw [add_links_cons, if_pos (h a (List.mem_cons_self a ls))]
    exact ih (fun l hl => h l (List.mem_cons_of_mem a hl))

lemma rowsFor_add_links_of_present (db : List LinkRow) (b : Nat)
    (ls : List ImageLink) (u : String) (h : pairPresent db b u = true) :
    rowsFor (add_links db b ls) b u = rowsFor db b u := by
  induction ls generalizing db with
  | nil => rfl
  | cons a ls ih =>
    rw [add_links_cons]
    by_cases ha : pairPresent db b a.url
    · rw [if_pos ha]; exact ih db h
    · rw [if_neg ha]
      have hstep : rowsFor (db ++ [linkRowOf (nextLinkId db) b a]) b u =
          rowsFor db b u := by
        unfold rowsFor
        rw [List.filter_append]
        have : [linkRowOf (nextLinkId db) b a].filter
            (fun r => r.block_id = b && r.url = u) = [] := by
          simp only [List.filter_cons, List.filter_nil]
          have hau : a.url ≠ u := by
            intro he
            rw [he] at ha
            exact ha h
          simp [linkRowOf, hau]
        rw [this, List.append_nil]
      rw [← hstep]
      exact ih _ (pairPresent_append db _ b u h)

lemma backoff_cap (a : Nat) :
    min (min ((2:ℚ)^a) 60 * 2) 60 = min ((2:ℚ)^(a+1)) 60 := by
  rcases le_total ((2:ℚ)^a) 60 with h | h
  · rw [min_eq_left h, pow_succ]
  · have h2 : (60:ℚ) ≤ 2^(a+1) :=
      le_trans h (pow_le_pow_right₀ (by norm_num) (Nat.le_succ a))
    rw [min_eq_right h, min_eq_right h2,
      min_eq_right (by norm_num : (60:ℚ) ≤ 60 * 2)]

lemma runAttempts_invariants (maxR : Nat) (responses : Nat → Response)
    (jitters : Nat → Nat) (off : Nat) :
    ∀ (fuel attempt : Nat) (backoff : ℚ) (st : LoopState),
      ((runAttempts maxR responses jitters off fuel attempt backoff st).success =
            false →
          (runAttempts maxR responses jitters off fuel attempt backoff
              st).error.isSome = true)
      ∧ ((runAttempts maxR responses jitters off fuel attempt backoff st).success =
            true →
          (runAttempts maxR responses jitters off fuel attempt backoff st).error =
              none
          ∧ (runAttempts maxR responses jitters off fuel attempt backoff
              st).final.isSome = true) := by
  intro fuel
  induction fuel with
  | zero => intro attempt backoff st; simp [runAttempts]
  | succ f ih =>
    intro attempt backoff st
    cases hr : responses attempt with
    | rateLimited ra =>
      simp only [runAttempts, hr]
      exact ih (attempt + 1) _ st
    | clientError msg =>
      by_cases hend : attempt + 1 ≥ maxR
      · simp [runAttempts, hr, hend]
      · simp only [runAttempts, hr, if_neg hend]
        exact ih (attempt + 1) _ st
    | ok ct cl et lm body =>
      by_cases hct : pyStartsWith ct "image/" = true
      · simp [runAttempts, hr, hct]
      · simp [runAttempts, hr, hct]
    | unexpectedError msg =>
      simp [runAttempts, hr]

lemma runAttempts_backoffSleeps (maxR : Nat) (responses : Nat → Response)
    (jitters : Nat → Nat) (off : Nat) (hj : ∀ i, jitters i ≤ 255) :
    ∀ (fuel attempt : Nat) (st : LoopState) (n : Nat) (s : ℚ),
      (n, s) ∈ (runAttempts maxR responses jitters off fuel attempt
          (min ((2:ℚ)^attempt) 60) st).backoffSleeps →
      min ((2:ℚ)^(n-1)) 60 ≤ s ∧ s ≤ min ((2:ℚ)^(n-1)) 60 + 1 ∧ s ≤ 61 := by
  have hstep : ∀ (attempt n : Nat) (s : ℚ),
      (n, s) = (attempt + 1,
        min ((2:ℚ)^attempt) 60 + (jitters attempt : ℚ) / 255) →
      min ((2:ℚ)^(n-1)) 60 ≤ s ∧ s ≤ min ((2:ℚ)^(n-1)) 60 + 1 ∧ s ≤ 61 := by
    intro attempt n s hpair
    have hn : n = attempt + 1 := (Prod.mk.injEq _ _ _ _ ▸ hpair).1
    have hs : s = min ((2:ℚ)^attempt) 60 + (jitters attempt : ℚ) / 255 :=
      (Prod.mk.injEq _ _ _ _ ▸ hpair).2
    have hn1 : n - 1 = attempt := by omega
    have hjnn : (0:ℚ) ≤ (jitters attempt : ℚ) / 255 := by positivity
    have hj1 : (jitters attempt : ℚ) / 255 ≤ 1 := by
      rw [div_le_one (by norm_num)]
      exact_mod_cast hj attempt
    refine ⟨?_, ?_, ?_⟩
    · rw [hn1, hs]; exact le_add_of_nonneg_right hjnn
    · rw [hn1, hs]; exact add_le_add_left hj1 _
    · rw [hs]
      calc min ((2:ℚ)^attempt) 60 + (jitters attempt : ℚ) / 255
          ≤ 60 + 1 := add_le_add (min_le_right _ _) hj1
        _ ≤ 61 := by norm_num
  intro fuel
  induction fuel with
  | zero => intro attempt st n s hmem; simp [runAttempts] at hmem
  | succ f ih =>
    intro attempt st n s hmem
    cases hr : responses attempt with
    | rateLimited ra =>
      simp only [runAttempts, hr] at hmem
      rw [List.mem_append] at hmem
      rcases hmem with hmem | hmem
      · by_cases hra : ra > 0
        · rw [if_pos hra] at hmem; cases hmem
        · rw [if_neg hra] at hmem
          rcases List.mem_singleton.mp hmem with hpair
          exact hstep attempt n s hpair
      · rw [backoff_cap] at hmem
        exact ih (attempt + 1) st n s hmem
    | clientError msg =>
      by_cases hend : attempt + 1 ≥ maxR
      · simp [runAttempts, hr, hend] at hmem
      · simp only [runAttempts, hr, if_neg hend] at hmem
        rcases List.mem_cons.mp hmem with hpair | hmem
        · exact hstep attempt n s hpair
        · rw [backoff_cap] at hmem
          exact ih (attempt + 1) st n s hmem
    | ok ct cl et lm body =>
      by_cases hct : pyStartsWith ct "image/" = true
      · simp [runAttempts, hr, hct] at hmem
      · simp [runAttempts, hr, hct] at hmem
    | unexpectedError msg =>
      simp [runAttempts, hr] at hmem

/-! ## Claim theorems -/

/-- C4: Pagination round-trip. For a manager built from any start URL with a
positive page size: the base URL carries no pagination parameter; every
`N ≤ 0` maps to the base URL; extracting the page number from the URL
generated for any `N ≥ 0` returns `N`; and for `N ≥ 1` the generated URL
appends the parameter with value `N * posts_per_page` for offset-style
(`"start"`) and `N + 1` for page-style — in particular, with page size 15,
page 1 carries 15 and page 2 carries 30, and a URL whose `start` value is 30
extracts to page 2. -/
theorem C4_pagination_round_trip (domain : String) (start_url : Url)
    (page_param : String) (pp : Int) (hpp : 0 < pp) (n : Int) :
    getFirstParam (mkPaginationManager domain start_url page_param pp).base_url.params
        page_param = none
    ∧ (n ≤ 0 →
        get_page_url (mkPaginationManager domain start_url page_param pp) n =
          (mkPaginationManager domain start_url page_param pp).base_url)
    ∧ (0 ≤ n →
        extract_page_number (mkPaginationManager domain start_url page_param pp)
          (get_page_url (mkPaginationManager domain start_url page_param pp) n) = n)
    ∧ (1 ≤ n →
        (get_page_url (mkPaginationManager domain start_url page_param pp) n).params =
          (mkPaginationManager domain start_url page_param pp).base_url.params
            ++ [(page_param,
                  .num (if page_param = "start" then n * pp else n + 1))]) := by
  set m := mkPaginationManager domain start_url page_param pp with hm
  have hparam : m.page_param = page_param := rfl
  have hppm : m.posts_per_page = pp := rfl
  have hbase : getFirstParam m.base_url.params page_param = none := by
    rw [hm]
    exact getFirstParam_filter_ne _ _
  refine ⟨hbase, fun hn => ?_, fun hn => ?_, fun hn => ?_⟩
  · unfold get_page_url
    rw [if_pos hn]
  · by_cases hle : n ≤ 0
    · have hn0 : n = 0 := le_antisymm hle hn
      unfold get_page_url
      rw [if_pos hle]
      unfold extract_page_number
      rw [hparam, hbase, hn0]
    · unfold get_page_url
      rw [if_neg hle]
      unfold extract_page_number
      simp only
      rw [hparam, getFirstParam_append_num _ _ _ hbase]
      unfold pyInt?
      simp only [hppm]
      by_cases hsp : page_param = "start"
      · rw [if_pos hsp, if_pos hsp]
        rw [Int.mul_fdiv_cancel _ (ne_of_gt hpp)]
        exact max_eq_right hn
      · rw [if_neg hsp, if_neg hsp]
        have : n + 1 - 1 = n := by ring
        rw [this]
        exact max_eq_right hn
  · unfold get_page_url
    rw [if_neg (by omega)]
    rw [hparam, hppm]

/-- C4 witness: offset-style manager with page size 15 at page 2; the
generated URL carries `start=30`, extracting from it yields 2, and the base
URL carries no `start` parameter. -/
theorem C4_pagination_round_trip_witness :
    ((0 : Int) < 15)
    ∧ (getFirstParam
        (mkPaginationManager "https://forum.com" ⟨"/viewtopic.php", [("f", .num 9)]⟩
          "start" 15).base_url.params "start" = none
      ∧ ((2 : Int) ≤ 0 →
          get_page_url (mkPaginationManager "https://forum.com"
              ⟨"/viewtopic.php", [("f", .num 9)]⟩ "start" 15) 2 =
            (mkPaginationManager "https://forum.com"
              ⟨"/viewtopic.php", [("f", .num 9)]⟩ "start" 15).base_url)
      ∧ ((0 : Int) ≤ 2 →
          extract_page_number (mkPaginationManager "https://forum.com"
              ⟨"/viewtopic.php", [("f", .num 9)]⟩ "start" 15)
            (get_page_url (mkPaginationManager "https://forum.com"
              ⟨"/viewtopic.php", [("f", .num 9)]⟩ "start" 15) 2) = 2)
      ∧ ((1 : Int) ≤ 2 →
          (get_page_url (mkPaginationManager "https://forum.com"
              ⟨"/viewtopic.php", [("f", .num 9)]⟩ "start" 15) 2).params =
            (mkPaginationManager "https://forum.com"
              ⟨"/viewtopic.php", [("f", .num 9)]⟩ "start" 15).base_url.params
              ++ [("start", .num (if "start" = "start" then 2 * 15 else 2 + 1))])) :=
  ⟨by norm_num,
   C4_pagination_round_trip "https://forum.com" ⟨"/viewtopic.php", [("f", .num 9)]⟩
     "start" 15 (by norm_num) 2⟩

/-- C10: when `find_next_page` returns a URL, its extracted page number is
exactly the current page's number plus one (so the orchestrator's
forward-progress guard `next_page_num <= current_page_num` can never fire on
it), and it is the absolute form of one of the discovered hrefs — the href
itself when it starts with `http`, otherwise the domain joined with the
href's path; an empty href list, or one in which no href extracts to
current + 1, yields `none`. -/
theorem C10_find_next_page (m : PaginationManager) (current : Url)
    (links : List Url) :
    find_next_page m current [] = none
    ∧ ((∀ l ∈ links,
          extract_page_number m l ≠ extract_page_number m current + 1) →
        find_next_page m current links = none)
    ∧ (∀ u, find_next_page m current links = some u →
        extract_page_number m u = extract_page_number m current + 1
        ∧ extract_page_number m current < extract_page_number m u
        ∧ ∃ l ∈ links, u = absolutize m l
            ∧ u.params = l.params
            ∧ extract_page_number m l = extract_page_number m current + 1
            ∧ (pyStartsWith l.base "http" = true → u = l)
            ∧ (pyStartsWith l.base "http" = false →
                ∃ b, u.base = m.domain ++ b)) := by
  refine ⟨by simp [find_next_page], fun hall => ?_, fun u hu => ?_⟩
  · unfold find_next_page
    by_cases hnil : links = []
    · rw [if_pos hnil]
    · rw [if_neg hnil]
      have hfn : links.find?
          (fun l => extract_page_number m l =
            extract_page_number m current + 1) = none := by
        rw [List.find?_eq_none]
        intro l hl
        simp only [decide_eq_true_eq]
        exact hall l hl
      simp only []
      rw [hfn]
  · unfold find_next_page at hu
    by_cases hnil : links = []
    · rw [if_pos hnil] at hu
      exact absurd hu (by simp)
    · rw [if_neg hnil] at hu
      simp only [] at hu
      cases hfind : links.find?
          (fun l => extract_page_number m l =
            extract_page_number m current + 1) with
      | none => rw [hfind] at hu; exact absurd hu (by simp)
      | some l =>
        rw [hfind] at hu
        have hul : u = absolutize m l := (Option.some_injective _ hu).symm
        have hlmem : l ∈ links := List.mem_of_find?_eq_some hfind
        have hlpage : extract_page_number m l =
            extract_page_number m current + 1 := by
          have := List.find?_some hfind
          simpa using this
        have hupage : extract_page_number m u =
            extract_page_number m current + 1 := by
          rw [hul, extract_page_number_absolutize, hlpage]
        refine ⟨hupage, by omega, l, hlmem, hul, by rw [hul, absolutize_params],
          hlpage, fun hhttp => ?_, fun hhttp => ?_⟩
        · rw [hul]
          unfold absolutize
          rw [if_pos hhttp]
        · rw [hul]
          unfold absolutize
          rw [if_neg (by simp [hhttp])]
          exact ⟨_, rfl⟩

/-- C10 witness: a concrete manager, current URL `start=15` (page 1), and a
relative href `start=30` (page 2); `find_next_page` returns the domain-joined
absolute URL and every conclusion holds at it. -/
theorem C10_find_next_page_witness :
    (find_next_page
        (mkPaginationManager "https://forum.com" ⟨"/t.php", []⟩ "start" 15)
        ⟨"https://forum.com/t.php", [("start", .num 15)]⟩ [] = none)
    ∧ ((∀ l ∈ [(⟨"./t.php", [("start", .num 30)]⟩ : Url)],
          extract_page_number
              (mkPaginationManager "https://forum.com" ⟨"/t.php", []⟩ "start" 15) l ≠
            extract_page_number
              (mkPaginationManager "https://forum.com" ⟨"/t.php", []⟩ "start" 15)
              ⟨"https://forum.com/t.php", [("start", .num 15)]⟩ + 1) →
        find_next_page
          (mkPaginationManager "https://forum.com" ⟨"/t.php", []⟩ "start" 15)
          ⟨"https://forum.com/t.php", [("start", .num 15)]⟩
          [⟨"./t.php", [("start", .num 30)]⟩] = none)
    ∧ (∀ u, find_next_page
          (mkPaginationManager "https://forum.com" ⟨"/t.php", []⟩ "start" 15)
          ⟨"https://forum.com/t.php", [("start", .num 15)]⟩
          [⟨"./t.php", [("start", .num 30)]⟩] = some u →
        extract_page_number
            (mkPaginationManager "https://forum.com" ⟨"/t.php", []⟩ "start" 15) u =
          extract_page_number
            (mkPaginationManager "https://forum.com" ⟨"/t.php", []⟩ "start" 15)
            ⟨"https://forum.com/t.php", [("start", .num 15)]⟩ + 1
        ∧ extract_page_number
            (mkPaginationManager "https://forum.com" ⟨"/t.php", []⟩ "start" 15)
            ⟨"https://forum.com/t.php", [("start", .num 15)]⟩ <
          extract_page_number
            (mkPaginationManager "https://forum.com" ⟨"/t.php", []⟩ "start" 15) u
        ∧ ∃ l ∈ [(⟨"./t.php", [("start", .num 30)]⟩ : Url)],
            u = absolutize
              (mkPaginationManager "https://forum.com" ⟨"/t.php", []⟩ "start" 15) l
            ∧ u.params = l.params
            ∧ extract_page_number
                (mkPaginationManager "https://forum.com" ⟨"/t.php", []⟩ "start" 15) l =
              extract_page_number
                (mkPaginationManager "https://forum.com" ⟨"/t.php", []⟩ "start" 15)
                ⟨"https://forum.com/t.php", [("start", .num 15)]⟩ + 1
            ∧ (pyStartsWith l.base "http" = true → u = l)
            ∧ (pyStartsWith l.base "http" = false →
                ∃ b, u.base =
                  (mkPaginationManager "https://forum.com" ⟨"/t.php", []⟩
                    "start" 15).domain ++ b)) :=
  C10_find_next_page
    (mkPaginationManager "https://forum.com" ⟨"/t.php", []⟩ "start" 15)
    ⟨"https://forum.com/t.php", [("start", .num 15)]⟩
    [⟨"./t.php", [("start", .num 30)]⟩]

/-- C3: Crash recovery. After the recovery pass, every link whose status was
DOWNLOADING has status QUEUED (with the timestamp refreshed) and every page
whose status was `processing` has status `new`; every other row is unchanged;
and each recovery operation returns exactly the number of rows it matched and
reset. -/
theorem C3_crash_recovery (links : List LinkRow) (pages : List PageRow)
    (now now2 : Nat) :
    (recover_downloading_links links now).1.length = links.length
    ∧ (∀ i (h : i < links.length),
        (links[i].status = .downloading →
          (recover_downloading_links links now).1[i]? =
            some { links[i] with status := .queued, updated_at := now })
        ∧ (links[i].status ≠ .downloading →
          (recover_downloading_links links now).1[i]? = some links[i]))
    ∧ (recover_downloading_links links now).2 =
        (links.filter (fun r => r.status = .downloading)).length
    ∧ (recover_processing_pages pages now2).1.length = pages.length
    ∧ (∀ i (h : i < pages.length),
        (pages[i].status = "processing" →
          (recover_processing_pages pages now2).1[i]? =
            some { pages[i] with status := "new", updated_at := now2 })
        ∧ (pages[i].status ≠ "processing" →
          (recover_processing_pages pages now2).1[i]? = some pages[i]))
    ∧ (recover_processing_pages pages now2).2 =
        (pages.filter (fun p => p.status = "processing")).length := by
  unfold recover_downloading_links recover_processing_pages
  refine ⟨by simp, fun i h => ⟨fun hs => ?_, fun hs => ?_⟩, rfl,
    by simp, fun i h => ⟨fun hs => ?_, fun hs => ?_⟩, rfl⟩
  · simp [List.getElem?_map, List.getElem?_eq_getElem h, hs]
  · simp [List.getElem?_map, List.getElem?_eq_getElem h, hs]
  · simp [List.getElem?_map, List.getElem?_eq_getElem h, hs]
  · simp [List.getElem?_map, List.getElem?_eq_getElem h, hs]

/-- C3 witness: a store with one DOWNLOADING and one DONE link and one
`processing` and one `done` page; the DOWNLOADING link becomes QUEUED, the
`processing` page becomes `new`, the others are untouched, and both counts
are 1. -/
theorem C3_crash_recovery_witness :
    (recover_downloading_links [sampleDownloadingLink, sampleDoneLink] 9).1[0]? =
        some { sampleDownloadingLink with status := .queued, updated_at := 9 }
    ∧ (recover_downloading_links [sampleDownloadingLink, sampleDoneLink] 9).1[1]? =
        some sampleDoneLink
    ∧ (recover_downloading_links [sampleDownloadingLink, sampleDoneLink] 9).2 = 1
    ∧ (recover_processing_pages [sampleProcessingPage, sampleDonePage] 11).1[0]? =
        some { sampleProcessingPage with status := "new", updated_at := 11 }
    ∧ (recover_processing_pages [sampleProcessingPage, sampleDonePage] 11).1[1]? =
        some sampleDonePage
    ∧ (recover_processing_pages [sampleProcessingPage, sampleDonePage] 11).2 = 1 := by
  have h := C3_crash_recovery [sampleDownloadingLink, sampleDoneLink]
    [sampleProcessingPage, sampleDonePage] 9 11
  refine ⟨(h.2.1 0 (by norm_num)).1 (by decide),
    (h.2.1 1 (by norm_num)).2 (by decide),
    h.2.2.1.trans (by decide),
    (h.2.2.2.2.1 0 (by norm_num)).1 (by decide),
    (h.2.2.2.2.1 1 (by norm_num)).2 (by decide),
    h.2.2.2.2.2.trans (by decide)⟩

/-- C8: Duplicate link insert is a no-op. `add_links` never propagates an
error (a duplicate insert raises, `insert_link db b l = .error ()`, but the
loop swallows it, `add_links db b [l] = db`); pre-existing rows survive
unchanged (the result is `db` with rows appended); every supplied link's
`(block_id, url)` pair is present afterwards; rows for a pair that already
existed are left exactly as they were; and adding the same link list twice
yields the same stored link set as adding it once. -/
theorem C8_add_links_duplicate_noop (db : List LinkRow) (b : Nat)
    (ls : List ImageLink) :
    (∀ l : ImageLink, pairPresent db b l.url = true →
        insert_link db b l = Except.error () ∧ add_links db b [l] = db)
    ∧ (∃ t, add_links db b ls = db ++ t)
    ∧ (∀ l ∈ ls, pairPresent (add_links db b ls) b l.url = true)
    ∧ (∀ u, pairPresent db b u = true →
        rowsFor (add_links db b ls) b u = rowsFor db b u)
    ∧ add_links (add_links db b ls) b ls = add_links db b ls := by
  refine ⟨fun l hl => ⟨?_, ?_⟩, add_links_suffix db b ls,
    add_links_all_present db b ls,
    fun u hu => rowsFor_add_links_of_present db b ls u hu,
    add_links_id_of_all_present _ b ls (add_links_all_present db b ls)⟩
  · unfold insert_link
    rw [if_pos hl]
  · rw [add_links_cons, if_pos hl]
    rfl

/-- C8 witness: a store already holding `(block 1, "u1")`; re-adding a link
list containing `"u1"` and a new `"u3"` raises-and-swallows on the duplicate,
keeps the old rows, inserts the new pair, leaves the `"u1"` rows unchanged,
and a second identical `add_links` changes nothing. -/
theorem C8_add_links_duplicate_noop_witness :
    (∀ l : ImageLink,
        pairPresent [sampleDownloadingLink, sampleDoneLink] 1 l.url = true →
        insert_link [sampleDownloadingLink, sampleDoneLink] 1 l =
            Except.error ()
          ∧ add_links [sampleDownloadingLink, sampleDoneLink] 1 [l] =
              [sampleDownloadingLink, sampleDoneLink])
    ∧ (∃ t, add_links [sampleDownloadingLink, sampleDoneLink] 1
          [{ url := "u1" }, { url := "u3" }] =
        [sampleDownloadingLink, sampleDoneLink] ++ t)
    ∧ (∀ l ∈ [({ url := "u1" } : ImageLink), { url := "u3" }],
        pairPresent (add_links [sampleDownloadingLink, sampleDoneLink] 1
          [{ url := "u1" }, { url := "u3" }]) 1 l.url = true)
    ∧ (∀ u, pairPresent [sampleDownloadingLink, sampleDoneLink] 1 u = true →
        rowsFor (add_links [sampleDownloadingLink, sampleDoneLink] 1
            [{ url := "u1" }, { url := "u3" }]) 1 u =
          rowsFor [sampleDownloadingLink, sampleDoneLink] 1 u)
    ∧ add_links
        (add_links [sampleDownloadingLink, sampleDoneLink] 1
          [{ url := "u1" }, { url := "u3" }]) 1
        [{ url := "u1" }, { url := "u3" }] =
      add_links [sampleDownloadingLink, sampleDoneLink] 1
        [{ url := "u1" }, { url := "u3" }] :=
  C8_add_links_duplicate_noop [sampleDownloadingLink, sampleDoneLink] 1
    [{ url := "u1" }, { url := "u3" }]

/-- C9: Frame property of `update_link_status`. The table keeps its length;
every row whose id differs from the target is unchanged; the target row gets
the new status and the refreshed timestamp, each optional field is
overwritten exactly when a non-`none` value is supplied and kept otherwise,
the untouched columns (id, block_id, url, referer, created_at) are preserved,
and retries grows by exactly one precisely when `increment_retries` is set,
all in the same update. -/
theorem C9_update_link_status_frame (db : List LinkRow) (link_id : Nat)
    (status : LinkStatus) (fn : Option String) (sz : Option Int)
    (et lm er : Option String) (incr : Bool) (now : Nat) :
    (update_link_status db link_id status fn sz et lm er incr now).length =
        db.length
    ∧ ∀ i (h : i < db.length),
        (db[i].id ≠ link_id →
          (update_link_status db link_id status fn sz et lm er incr now)[i]? =
            some db[i])
        ∧ (db[i].id = link_id →
          (update_link_status db link_id status fn sz et lm er incr now)[i]? =
            some { db[i] with
              status := status
              updated_at := now
              filename := match fn with | some v => some v | none => db[i].filename
              size := match sz with | some v => some v | none => db[i].size
              etag := match et with | some v => some v | none => db[i].etag
              last_modified :=
                match lm with | some v => some v | none => db[i].last_modified
              error := match er with | some v => some v | none => db[i].error
              retries :=
                if incr then db[i].retries + 1 else db[i].retries }) := by
  refine ⟨by simp [update_link_status], fun i h => ⟨fun hne => ?_, fun heq => ?_⟩⟩
  · unfold update_link_status
    simp only []
    rw [List.getElem?_map, List.getElem?_eq_getElem h]
    simp only [Option.map_some']
    rw [if_neg hne]
  · unfold update_link_status
    simp only []
    rw [List.getElem?_map, List.getElem?_eq_getElem h]
    simp only [Option.map_some']
    rw [if_pos heq]
    cases fn <;> cases sz <;> cases et <;> cases lm <;> cases er <;>
      cases incr <;> simp [buildUpdates, applyCol, heq]

/-- C9 witness: updating link 2 of a two-row store to FAILED with an error
text and the retry increment, supplying no metadata fields: link 1 is
untouched and link 2 keeps its filename and size, gets the error and the
bumped retry counter. -/
theorem C9_update_link_status_frame_witness :
    (update_link_status [sampleDownloadingLink, sampleDoneLink] 2 .failed
        none none none none (some "boom") true 7).length = 2
    ∧ ∀ i (h : i < ([sampleDownloadingLink, sampleDoneLink] :
        List LinkRow).length),
        ([sampleDownloadingLink, sampleDoneLink] : List LinkRow)[i].id ≠ 2 →
          (update_link_status [sampleDownloadingLink, sampleDoneLink] 2 .failed
            none none none none (some "boom") true 7)[i]? =
            some ([sampleDownloadingLink, sampleDoneLink] : List LinkRow)[i] := by
  have h := C9_update_link_status_frame [sampleDownloadingLink, sampleDoneLink]
    2 .failed none none none none (some "boom") true 7
  exact ⟨h.1, fun i hi hne => (h.2 i hi).1 hne⟩

/-- C2: Ingestion is NOT idempotent — the claim fails on the code. Ingesting
the same page (one block titled `T` with slug `x` carrying one link `u`) twice
into a fresh state: the first pass creates block number 1 (slug `0001_x`) and
its image directory; the second pass counts that directory, computes block
number 2, looks up slug `0002_x`, misses, creates a second block and inserts
the link again. The persisted link count grows from 1 to 2 and a second block
row appears instead of the first being reused. -/
theorem C2_reingest_not_idempotent :
    (process_html_reg OrchState.empty (some "P")
        [("T", "x", [{ url := "u" }])]).links.length = 1
    ∧ (process_html_reg OrchState.empty (some "P")
        [("T", "x", [{ url := "u" }])]).blocks.length = 1
    ∧ (process_html_reg
        (process_html_reg OrchState.empty (some "P") [("T", "x", [{ url := "u" }])])
        (some "P") [("T", "x", [{ url := "u" }])]).links.length = 2
    ∧ (process_html_reg
        (process_html_reg OrchState.empty (some "P") [("T", "x", [{ url := "u" }])])
        (some "P") [("T", "x", [{ url := "u" }])]).blocks.map (·.numslug) =
      [(1, "x"), (2, "x")] := by
  decide

/-- C1: Resume correctness. For any `K ≤ |resource|`, with a `.part` file
holding the resource's first `K` bytes: the engine takes the partial file's
byte length `K` as the resume offset, sends a `Range` header starting at `K`
exactly when `K > 0`, and — when the server honours the range by sending the
bytes from offset `K` — the final file after the atomic rename equals the
full resource, byte-identical to the file an uninterrupted download (no
`.part` file, full body) produces. -/
theorem C1_resume_correctness (res : List Nat) (K : Nat) (hK : K ≤ res.length)
    (maxR : Nat) (hm : 0 < maxR) (ct : String)
    (hct : pyStartsWith ct "image/" = true) (cl : Option Nat)
    (et lm : Option String) (jitters jitters2 : Nat → Nat) :
    resume_from (some (res.take K)) = K
    ∧ rangeHeader (resume_from (some (res.take K))) =
        (if 0 < K then some K else none)
    ∧ (download_image maxR (fun _ => .ok ct cl et lm (res.drop K)) jitters
        (some (res.take K))).final = some res
    ∧ (download_image maxR (fun _ => .ok ct cl et lm res) jitters2
        none).final = some res := by
  have hoff : resume_from (some (res.take K)) = K := by
    simp [resume_from, List.length_take, min_eq_left hK]
  cases maxR with
  | zero => omega
  | succ k =>
    refine ⟨hoff, ?_, ?_, ?_⟩
    · rw [hoff]
      rfl
    · unfold download_image
      rw [hoff]
      simp only [runAttempts, hct, if_true]
      by_cases hK0 : 0 < K
      · simp only [if_pos hK0, Option.getD_some, Option.some.injEq]
        exact List.take_append_drop K res
      · have : K = 0 := by omega
        subst this
        simp
    · unfold download_image
      simp [runAttempts, resume_from, hct]

/-- C1 witness: resource `[10, 20, 30]` interrupted after 2 bytes; the resume
offset is 2, the range header requests from byte 2, and both the resumed and
the uninterrupted download end with the file `[10, 20, 30]`. -/
theorem C1_resume_correctness_witness :
    ((2 : Nat) ≤ ([10, 20, 30] : List Nat).length ∧ 0 < 5
      ∧ pyStartsWith "image/jpeg" "image/" = true)
    ∧ (resume_from (some (([10, 20, 30] : List Nat).take 2)) = 2
      ∧ rangeHeader (resume_from (some (([10, 20, 30] : List Nat).take 2))) =
          (if 0 < 2 then some 2 else none)
      ∧ (download_image 5
          (fun _ => .ok "image/jpeg" none none none (([10, 20, 30] : List Nat).drop 2))
          (fun _ => 0) (some (([10, 20, 30] : List Nat).take 2))).final =
          some [10, 20, 30]
      ∧ (download_image 5 (fun _ => .ok "image/jpeg" none none none [10, 20, 30])
          (fun _ => 7) none).final = some [10, 20, 30]) :=
  ⟨⟨by decide, by decide, by decide⟩,
   C1_resume_correctness [10, 20, 30] 2 (by decide) 5 (by decide) "image/jpeg"
     (by decide) none none none (fun _ => 0) (fun _ => 7)⟩

/-- C5: Backoff bounds. Every exponential-backoff sleep the loop performs
(after a transient `ClientError` or a 429/503 without a server-specified
delay), tagged with its consecutive-retry index `n`, lasts at least
`min(2^(n-1), 60)` seconds and at most `min(2^(n-1), 60) + 1` seconds (the
jitter byte contributes `[0, 1]`), hence never more than 61 seconds. -/
theorem C5_backoff_bounds (maxR : Nat) (responses : Nat → Response)
    (jitters : Nat → Nat) (part0 : Option (List Nat))
    (hj : ∀ i, jitters i ≤ 255) (n : Nat) (s : ℚ)
    (hmem : (n, s) ∈ (download_image maxR responses jitters part0).backoffSleeps) :
    min ((2:ℚ)^(n-1)) 60 ≤ s ∧ s ≤ min ((2:ℚ)^(n-1)) 60 + 1 ∧ s ≤ 61 := by
  unfold download_image at hmem
  rw [show (1:ℚ) = min ((2:ℚ)^(0:ℕ)) 60 by norm_num] at hmem
  exact runAttempts_backoffSleeps maxR responses jitters _ hj maxR 0 _ n s hmem

/-- C5 witness: first attempt hits a connection error with jitter byte 255;
the recorded first-retry sleep is `1 + 255/255 = 2` seconds, within
`[min(2^0, 60), min(2^0, 60) + 1] = [1, 2]` and below 61. -/
theorem C5_backoff_bounds_witness :
    (∀ i : Nat, (fun _ : Nat => 255) i ≤ 255)
    ∧ ((1 : Nat), (2 : ℚ)) ∈ (download_image 3
        (fun i => if i = 0 then .clientError "t"
                  else .ok "image/png" none none none [1])
        (fun _ => 255) none).backoffSleeps
    ∧ (min ((2:ℚ)^((1:Nat)-1)) 60 ≤ 2 ∧ (2:ℚ) ≤ min ((2:ℚ)^((1:Nat)-1)) 60 + 1
        ∧ (2:ℚ) ≤ 61) := by
  have hj : ∀ i : Nat, (fun _ : Nat => 255) i ≤ 255 := fun _ => le_refl _
  have hmem : ((1 : Nat), (2 : ℚ)) ∈ (download_image 3
      (fun i => if i = 0 then .clientError "t"
                else .ok "image/png" none none none [1])
      (fun _ => 255) none).backoffSleeps := by
    norm_num [download_image, runAttempts, resume_from,
      show pyStartsWith "image/png" "image/" = true from by decide]
  exact ⟨hj, hmem,
    C5_backoff_bounds 3 _ _ none hj 1 2 hmem⟩

/-- C6: Content-type rejection. If the attempt's response is successful but
its content type does not begin with `image/`, the loop returns immediately:
the result is a failure carrying `Invalid content type: <type>`, the `.part`
file is untouched, no final file is written, exactly this one request was
made from that point (no retry, whatever budget remains), no backoff sleep
happens, and `download_link` then emits a terminal FAILED callback with that
error text. -/
theorem C6_content_type_rejection (maxR : Nat) (responses : Nat → Response)
    (jitters : Nat → Nat) (off fuel attempt : Nat) (backoff : ℚ)
    (st : LoopState) (ct : String) (cl : Option Nat) (et lm : Option String)
    (body : List Nat)
    (hresp : responses attempt = .ok ct cl et lm body)
    (hct : pyStartsWith ct "image/" = false) :
    runAttempts maxR responses jitters off (fuel + 1) attempt backoff st =
      { success := false, error := some ("Invalid content type: " ++ ct)
        part := st.part, final := none, size := st.size, etag := st.etag
        last_modified := st.last_modified, requests := 1, backoffSleeps := [] }
    ∧ (attempt = 0 → 0 < maxR →
        ∀ (filename : String) (part0 : Option (List Nat)),
          (download_link maxR responses jitters filename part0).2 =
            [{ status := .downloading, filename := some filename },
             { status := .failed,
               error := some ("Invalid content type: " ++ ct),
               increment_retries := true }]) := by
  have key : ∀ (off2 fuel2 attempt2 : Nat) (backoff2 : ℚ) (st2 : LoopState),
      responses attempt2 = .ok ct cl et lm body →
      runAttempts maxR responses jitters off2 (fuel2 + 1) attempt2 backoff2 st2 =
        { success := false, error := some ("Invalid content type: " ++ ct)
          part := st2.part, final := none, size := st2.size, etag := st2.etag
          last_modified := st2.last_modified, requests := 1,
          backoffSleeps := [] } := by
    intro off2 fuel2 attempt2 backoff2 st2 hr
    simp [runAttempts, hr, hct]
  refine ⟨key off fuel attempt backoff st hresp, fun h0 hmax filename part0 => ?_⟩
  subst h0
  cases maxR with
  | zero => omega
  | succ k =>
    unfold download_link download_image
    simp only []
    rw [key (resume_from part0) k 0 1 ⟨part0, none, none, none⟩ hresp]
    rfl

/-- C6 witness: a `text/html` response for an image URL on the first attempt
with three retries budgeted: the loop returns the invalid-content-type
failure with the `.part` file untouched, one request, no sleeps, and
`download_link` emits DOWNLOADING then FAILED with the error text. -/
theorem C6_content_type_rejection_witness :
    ((fun _ : Nat => Response.ok "text/html" none none none [1, 2]) 0 =
        .ok "text/html" none none none [1, 2]
      ∧ pyStartsWith "text/html" "image/" = false)
    ∧ (runAttempts 3 (fun _ => .ok "text/html" none none none [1, 2])
        (fun _ => 9) 0 (2 + 1) 0 1 ⟨some [5], none, none, none⟩ =
        { success := false, error := some ("Invalid content type: " ++ "text/html")
          part := (⟨some [5], none, none, none⟩ : LoopState).part, final := none
          size := (⟨some [5], none, none, none⟩ : LoopState).size
          etag := (⟨some [5], none, none, none⟩ : LoopState).etag
          last_modified := (⟨some [5], none, none, none⟩ : LoopState).last_modified
          requests := 1, backoffSleeps := [] }
      ∧ ((0 : Nat) = 0 → 0 < 3 →
          ∀ (filename : String) (part0 : Option (List Nat)),
            (download_link 3 (fun _ => .ok "text/html" none none none [1, 2])
              (fun _ => 9) filename part0).2 =
              [{ status := .downloading, filename := some filename },
               { status := .failed,
                 error := some ("Invalid content type: " ++ "text/html"),
                 increment_retries := true }])) :=
  ⟨⟨rfl, by decide⟩,
   C6_content_type_rejection 3 (fun _ => .ok "text/html" none none none [1, 2])
     (fun _ => 9) 0 2 0 1 ⟨some [5], none, none, none⟩ "text/html" none none none
     [1, 2] rfl (by decide)⟩

/-- C7: Terminal status callback. With a callback supplied, `download_link`
invokes it exactly twice: first with DOWNLOADING (carrying the filename),
then exactly once with a terminal status — DONE carrying filename, size,
etag and last-modified on success, or FAILED carrying an error text (always
present on failure) and the increment-retries flag — and never with any
other status value. -/
theorem C7_terminal_status_callback (maxR : Nat) (responses : Nat → Response)
    (jitters : Nat → Nat) (filename : String) (part0 : Option (List Nat)) :
    (download_link maxR responses jitters filename part0).2.length = 2
    ∧ (download_link maxR responses jitters filename part0).2.head? =
        some { status := .downloading, filename := some filename }
    ∧ ((download_link maxR responses jitters filename part0).1.success = true →
        (download_link maxR responses jitters filename part0).2 =
          [{ status := .downloading, filename := some filename },
           { status := .done, filename := some filename
             size := (download_link maxR responses jitters filename part0).1.size
             etag := (download_link maxR responses jitters filename part0).1.etag
             last_modified :=
               (download_link maxR responses jitters filename part0).1.last_modified }])
    ∧ ((download_link maxR responses jitters filename part0).1.success = false →
        (download_link maxR responses jitters filename part0).2 =
          [{ status := .downloading, filename := some filename },
           { status := .failed
             error := (download_link maxR responses jitters filename part0).1.error
             increment_retries := true }]
        ∧ ((download_link maxR responses jitters filename part0).1.error).isSome =
            true)
    ∧ (∀ c ∈ (download_link maxR responses jitters filename part0).2,
        c.status = .downloading ∨ c.status = .done ∨ c.status = .failed) := by
  have hfst : (download_link maxR responses jitters filename part0).1 =
      download_image maxR responses jitters part0 := rfl
  have hinv := runAttempts_invariants maxR responses jitters
    (resume_from part0) maxR 0 1 ⟨part0, none, none, none⟩
  cases hs : (download_image maxR responses jitters part0).success
  · refine ⟨?_, ?_, ?_, ?_, ?_⟩ <;>
      simp only [download_link, hfst, hs] <;>
      simp only [download_link] at *
    · simp [hs]
    · simp [hs]
    · simp [hs]
    · intro _
      exact ⟨by simp, hinv.1 hs⟩
    · intro c hc
      simp [hs] at hc
      rcases hc with rfl | rfl
      · exact Or.inl rfl
      · exact Or.inr (Or.inr rfl)
  · refine ⟨?_, ?_, ?_, ?_, ?_⟩ <;>
      simp only [download_link, hfst, hs] <;>
      simp only [download_link] at *
    · simp [hs]
    · simp [hs]
    · simp [hs]
    · simp [hs]
    · intro c hc
      simp [hs] at hc
      rcases hc with rfl | rfl
      · exact Or.inl rfl
      · exact Or.inr (Or.inl rfl)

/-- C7 witness: a first-attempt success with metadata headers; the callback
trace is DOWNLOADING then DONE (with size 2, the etag and last-modified), of
length 2, and nothing else. -/
theorem C7_terminal_status_callback_witness :
    (download_link 4 (fun _ => .ok "image/png" (some 2) (some "E1") (some "LM")
        [1, 2]) (fun _ => 0) "pic.png" none).2.length = 2
    ∧ (download_link 4 (fun _ => .ok "image/png" (some 2) (some "E1") (some "LM")
        [1, 2]) (fun _ => 0) "pic.png" none).2.head? =
        some { status := .downloading, filename := some "pic.png" }
    ∧ (download_link 4 (fun _ => .ok "image/png" (some 2) (some "E1") (some "LM")
        [1, 2]) (fun _ => 0) "pic.png" none).2 =
        [{ status := .downloading, filename := some "pic.png" },
         { status := .done, filename := some "pic.png", size := some 2
           etag := some "E1", last_modified := some "LM" }] := by
  have h := C7_terminal_status_callback 4
    (fun _ => .ok "image/png" (some 2) (some "E1") (some "LM") [1, 2])
    (fun _ => 0) "pic.png" none
  have hsucc : (download_link 4
      (fun _ => .ok "image/png" (some 2) (some "E1") (some "LM") [1, 2])
      (fun _ => 0) "pic.png" none).1.success = true := by
    simp [download_link, download_image, runAttempts, resume_from,
      show pyStartsWith "image/png" "image/" = true from by decide]
  refine ⟨h.1, h.2.1, (h.2.2.1 hsucc).trans ?_⟩
  simp [download_link, download_image, runAttempts, resume_from,
    show pyStartsWith "image/png" "image/" = true from by decide]
